import Mathlib

/-
Verification development for the tus-demo repository: a React component
(src/frontend/src/App.tsx) that drives resumable uploads through the
tus-js-client library, and an Express proxy (documented in the repository)
that forwards /api/upload traffic to the Cloudflare Stream API while
injecting the Authorization header.

The component is embedded as a state machine: `AppState` holds the React
state hooks, `Event` enumerates the user events and library callbacks, and
`step` runs the corresponding handler, returning the new state together
with the list of external effects (library calls and HTTP fetches) the
handler performs.  Console logging in the source is pure diagnostics and
is not modelled as an effect.
-/

namespace TusDemo

/-- Browser `File` object: the fields App.tsx reads (`name`, `type`, `size`). -/
structure File where
  name : String
  type : String
  size : Nat
deriving DecidableEq

/-- Options object passed to `new tus.Upload(file, {...})` in App.tsx lines
38-65.  The three `metadata` entries are the fields of the `metadata`
object literal.  App.tsx passes no `headers` option, so the extra-header
list defaults to empty, mirroring tus-js-client's default. -/
structure UploadOptions where
  endpoint : String
  retryDelays : List Nat
  chunkSize : Nat
  metadataName : String
  metadataType : String
  metadataAllowedorigins : String
  headers : List (String × String)
deriving DecidableEq

/-- A `tus.Upload` instance: the file and options it was constructed with
(the callbacks close over exactly this file). -/
structure TusUpload where
  file : File
  options : UploadOptions
deriving DecidableEq

/-- The status fetch issued in `onSuccess`:
`fetch(`/api/upload/status?filename=${encodeURIComponent(...)}`)`.
`filenameParam` is the value of the `filename` query parameter
(`encodeURIComponent` is applied at URL serialisation; it round-trips, so
the parameter is modelled by its decoded string value). -/
structure StatusRequest where
  path : String
  filenameParam : String
deriving DecidableEq

/-- External effects the component performs: the three tus library calls
(`new tus.Upload`, `upload.start()`, `upload.abort()`) and the plain
status `fetch`. -/
inductive Effect where
  | createUpload (u : TusUpload)
  | startUpload (u : TusUpload)
  | abortUpload (u : TusUpload)
  | fetchStatus (r : StatusRequest)
deriving DecidableEq

/-- JSON body of the `/api/upload/status` response as read by `onSuccess`:
`data.mediaId` may be absent (`none`). -/
structure StatusData where
  mediaId : Option String
deriving DecidableEq

/-- React state of the `App` component: the five `useState` hooks. -/
structure AppState where
  file : Option File
  progress : ℚ
  uploadStatus : String
  mediaId : String
  upload : Option TusUpload
deriving DecidableEq

/-- Initial state: `useState<File|null>(null)`, `useState(0)`,
`useState("")`, `useState("")`, `useState<tus.Upload|null>(null)`. -/
def initialState : AppState :=
  { file := none, progress := 0, uploadStatus := "", mediaId := "", upload := none }

/-- Events driving the component: user interactions, tus callbacks, and the
resolution of the status fetch (`none` = the fetch/JSON-parse rejected,
taken by the `.catch`). -/
inductive Event where
  | fileChange (files : List File)
  | clickUpload
  | progressCb (bytesUploaded bytesTotal : Nat)
  | errorCb (message : String)
  | successCb
  | statusResponse (response : Option StatusData)
  | clickCancel
  | unmount
deriving DecidableEq

/-- The asset name `${timestamp} - ${file.name}` used both as the upload
metadata `name` (App.tsx line 43) and as the status-fetch filename
(App.tsx line 60).  `ts` is the module-level `timestamp` constant, fixed
once at module load. -/
def timestampName (ts : String) (f : File) : String :=
  ts ++ " - " ++ f.name

/-- The options App.tsx passes to `new tus.Upload` (lines 38-46). -/
def mkUploadOptions (ts : String) (f : File) : UploadOptions :=
  { endpoint := "http://localhost:3001/api/upload"
    retryDelays := [0, 3000, 5000, 10000, 20000]
    chunkSize := 50 * 1024 * 1024
    metadataName := timestampName ts f
    metadataType := f.type
    metadataAllowedorigins := "102.223.38.190"
    headers := [] }

/-- Round half up to an integer: the rounding `Number.prototype.toFixed`
performs (on a tie the larger value is chosen). -/
def roundHalfUp (q : ℚ) : ℤ := ⌊q + 1/2⌋

/-- Numerator over 100 of `v.toFixed(2)`: `v` rounded to two decimal
places, scaled by 100 to an integer. -/
def toFixed2Int (v : ℚ) : ℤ := roundHalfUp (v * 100)

/-- Decimal rendering of `n / 100` with exactly two decimal places, for
nonnegative `n`: the string produced by `toFixed(2)`. -/
def fixed2String (n : ℤ) : String :=
  toString (n / 100) ++ "." ++ (if n % 100 < 10 then "0" ++ toString (n % 100) else toString (n % 100))

/-- Status string `` `Uploading: ${percentage}%` `` (App.tsx line 55). -/
def uploadingMsg (n : ℤ) : String :=
  "Uploading: " ++ (fixed2String n ++ "%")

/-- Status string `` `Upload failed: ${error.message}` `` (App.tsx line 49). -/
def failedMsg (m : String) : String :=
  "Upload failed: " ++ m

/-- Handler `handleFileChange` (App.tsx lines 18-24): if the input carries
a file, store it, set status "File selected" and reset progress to 0;
otherwise do nothing. -/
def handleFileChange (s : AppState) (files : List File) : AppState × List Effect :=
  match files with
  | f :: _ => ({ s with file := some f, uploadStatus := "File selected", progress := 0 }, [])
  | [] => (s, [])

/-- Handler `handleUpload` (App.tsx lines 26-72): without a file, set
status "Please select a file first" and return; with a file, set status
"Starting upload...", construct the `tus.Upload` with `mkUploadOptions`,
store it, and start it. -/
def handleUpload (ts : String) (s : AppState) : AppState × List Effect :=
  match s.file with
  | none => ({ s with uploadStatus := "Please select a file first" }, [])
  | some f =>
      let u : TusUpload := { file := f, options := mkUploadOptions ts f }
      ({ s with uploadStatus := "Starting upload...", upload := some u },
       [Effect.createUpload u, Effect.startUpload u])

/-- Callback `onProgress` (App.tsx lines 51-56): `percentage` is
`((bytesUploaded / bytesTotal) * 100).toFixed(2)`; the component stores
`Number(percentage)` as progress and sets the uploading status string. -/
def onProgress (s : AppState) (bytesUploaded bytesTotal : Nat) : AppState × List Effect :=
  let n : ℤ := toFixed2Int ((bytesUploaded : ℚ) / (bytesTotal : ℚ) * 100)
  ({ s with progress := (n : ℚ) / 100, uploadStatus := uploadingMsg n }, [])

/-- Callback `onError` (App.tsx lines 47-50): log and set the failure
status; nothing else. -/
def onError (s : AppState) (message : String) : AppState × List Effect :=
  ({ s with uploadStatus := failedMsg message }, [])

/-- Callback `onSuccess` (App.tsx lines 58-64): set the completion status
and fetch `/api/upload/status?filename=<metadata name>`.  The callback
closes over the file the upload was created with, carried by the stored
upload instance. -/
def onSuccess (ts : String) (s : AppState) : AppState × List Effect :=
  match s.upload with
  | some u =>
      ({ s with uploadStatus := "Upload complete! Video is now processing." },
       [Effect.fetchStatus { path := "/api/upload/status", filenameParam := timestampName ts u.file }])
  | none => (s, [])

/-- Resolution of the status fetch (App.tsx lines 61-63): on a parsed
response set `mediaId` to `data.mediaId || ""`; the `.catch` branch only
logs, leaving the state unchanged. -/
def onStatusResponse (s : AppState) (response : Option StatusData) : AppState × List Effect :=
  match response with
  | some d => ({ s with mediaId := d.mediaId.getD "" }, [])
  | none => (s, [])

/-- Handler `handleCancel` (App.tsx lines 75-80): with a stored upload,
abort it and set status "Upload cancelled"; otherwise do nothing. -/
def handleCancel (s : AppState) : AppState × List Effect :=
  match s.upload with
  | some u => ({ s with uploadStatus := "Upload cancelled" }, [Effect.abortUpload u])
  | none => (s, [])

/-- The `useEffect` cleanup (App.tsx lines 83-89): abort the stored upload
on unmount; no state is updated. -/
def unmountCleanup (s : AppState) : AppState × List Effect :=
  match s.upload with
  | some u => (s, [Effect.abortUpload u])
  | none => (s, [])

/-- One step of the component: dispatch the event to its handler. -/
def step (ts : String) (e : Event) (s : AppState) : AppState × List Effect :=
  match e with
  | .fileChange files => handleFileChange s files
  | .clickUpload => handleUpload ts s
  | .progressCb b t => onProgress s b t
  | .errorCb m => onError s m
  | .successCb => onSuccess ts s
  | .statusResponse r => onStatusResponse s r
  | .clickCancel => handleCancel s
  | .unmount => unmountCleanup s

/-- Render condition of the Upload button's `disabled` attribute
(App.tsx line 107): `!file || (progress > 0 && progress < 100)`. -/
def uploadButtonDisabled (s : AppState) : Bool :=
  s.file.isNone || (decide (0 < s.progress) && decide (s.progress < 100))

/-- Render condition of the Cancel button (App.tsx line 113):
`progress > 0 && progress < 100`. -/
def cancelButtonRendered (s : AppState) : Bool :=
  decide (0 < s.progress) && decide (s.progress < 100)

/-- Render condition of the media-info block (App.tsx line 149):
`{mediaId && ...}` — rendered when `mediaId` is a non-empty string. -/
def mediaInfoRendered (s : AppState) : Bool :=
  decide (s.mediaId ≠ "")

/-- An HTTP request as seen by the proxy middleware: method, path
(`req.originalUrl`, which http-proxy-middleware restores under Express
mounting), headers and an opaque byte body. -/
structure HttpRequest where
  method : String
  path : String
  headers : List (String × String)
  body : List Nat
deriving DecidableEq

/-- An HTTP response: only the headers matter to the proxy code. -/
structure HttpResponse where
  headers : List (String × String)
deriving DecidableEq

/-- Node's `setHeader`: replace any existing header of that name. -/
def setHeader (hs : List (String × String)) (n v : String) : List (String × String) :=
  (n, v) :: hs.filter (fun h => decide (h.1 ≠ n))

/-- Header lookup by name (first match). -/
def getHeader (hs : List (String × String)) (n : String) : Option String :=
  (hs.find? (fun h => decide (h.1 = n))).map (fun h => h.2)

/-- Rewrite target of the proxy's `pathRewrite` rule:
`/client/v4/accounts/<ACCOUNT_ID>/stream` with `<ACCOUNT_ID>` filled in. -/
def streamPath (accountId : String) : String :=
  "/client/v4/accounts/" ++ accountId ++ "/stream"

/-- The proxy's `pathRewrite: { '^/api/upload': streamPath }`: replace a
leading `/api/upload` match by the stream path, keeping the rest of the
URL. -/
def tusProxyPathRewrite (accountId : String) (p : String) : String :=
  if "/api/upload".data.isPrefixOf p.data then
    streamPath accountId ++ String.mk (p.data.drop "/api/upload".data.length)
  else p

/-- The proxy's `onProxyReq`: set the `Authorization` header to the bearer
API token on the outgoing request. -/
def onProxyReq (apiToken : String) (proxyReq : HttpRequest) : HttpRequest :=
  { proxyReq with headers := setHeader proxyReq.headers "Authorization" ("Bearer " ++ apiToken) }

/-- The proxy's `onProxyRes`: copy the `stream-media-id` header from the
upstream response onto the client response when present. -/
def onProxyRes (proxyRes res : HttpResponse) : HttpResponse :=
  match getHeader proxyRes.headers "stream-media-id" with
  | some v => { res with headers := setHeader res.headers "stream-media-id" v }
  | none => res

/-- A request about to leave the proxy: the upstream target plus the
rewritten, header-augmented request. -/
structure ForwardedRequest where
  target : String
  request : HttpRequest
deriving DecidableEq

/-- What `tusProxy` does to a request it receives (the middleware is
mounted at `/api/upload`): forward to `https://api.cloudflare.com` with
the path rewritten and the Authorization header injected; method and body
pass through untouched. -/
def tusProxyForward (apiToken accountId : String) (req : HttpRequest) : ForwardedRequest :=
  { target := "https://api.cloudflare.com"
    request := onProxyReq apiToken { req with path := tusProxyPathRewrite accountId req.path } }

/-- Deployment-level configuration: the server-side credentials and the
frontend's module-load timestamp. -/
structure SystemConfig where
  apiToken : String
  accountId : String
  timestamp : String
deriving DecidableEq

/-- The frontend of the system as a function of the full configuration:
App.tsx only ever uses the timestamp, never the credentials. -/
def frontendStep (cfg : SystemConfig) (e : Event) (s : AppState) : AppState × List Effect :=
  step cfg.timestamp e s

/-- True exactly on the effects that are calls into the tus-js-client
library (`new tus.Upload`, `start`, `abort`). -/
def tusLibraryCall : Effect → Bool
  | .createUpload _ => true
  | .startUpload _ => true
  | .abortUpload _ => true
  | .fetchStatus _ => false

/-- Two strings differing at some character position are different. -/
theorem ne_of_data_get (s t : String) (n : Nat) (h : s.data[n]? ≠ t.data[n]?) : s ≠ t :=
  fun he => h (by rw [he])

/-- Character lookup inside the left part of a string append. -/
theorem data_get_append (s x : String) (n : Nat) (h : n < s.data.length) :
    (s ++ x).data[n]? = s.data[n]? := by
  rw [String.data_append, List.getElem?_append_left h]

/-- An uploading status never coincides with a failure status (they differ
at character 6: 'i' vs ' '). -/
theorem uploadingMsg_ne_failedMsg (n : ℤ) (m : String) : uploadingMsg n ≠ failedMsg m := by
  apply ne_of_data_get _ _ 6
  unfold uploadingMsg failedMsg
  rw [data_get_append _ _ 6 (by decide), data_get_append _ _ 6 (by decide)]
  decide

/-- An uploading status never coincides with the completion status. -/
theorem uploadingMsg_ne_complete (n : ℤ) :
    uploadingMsg n ≠ "Upload complete! Video is now processing." := by
  apply ne_of_data_get _ _ 6
  unfold uploadingMsg
  rw [data_get_append _ _ 6 (by decide)]
  decide

/-- An uploading status never coincides with the cancellation status. -/
theorem uploadingMsg_ne_cancelled (n : ℤ) : uploadingMsg n ≠ "Upload cancelled" := by
  apply ne_of_data_get _ _ 6
  unfold uploadingMsg
  rw [data_get_append _ _ 6 (by decide)]
  decide

/-- An uploading status never coincides with "File selected". -/
theorem uploadingMsg_ne_fileSelected (n : ℤ) : uploadingMsg n ≠ "File selected" := by
  apply ne_of_data_get _ _ 0
  unfold uploadingMsg
  rw [data_get_append _ _ 0 (by decide)]
  decide

/-- An uploading status never coincides with "Please select a file first". -/
theorem uploadingMsg_ne_pleaseSelect (n : ℤ) :
    uploadingMsg n ≠ "Please select a file first" := by
  apply ne_of_data_get _ _ 0
  unfold uploadingMsg
  rw [data_get_append _ _ 0 (by decide)]
  decide

/-- An uploading status never coincides with "Starting upload...". -/
theorem uploadingMsg_ne_starting (n : ℤ) : uploadingMsg n ≠ "Starting upload..." := by
  apply ne_of_data_get _ _ 0
  unfold uploadingMsg
  rw [data_get_append _ _ 0 (by decide)]
  decide

/-- A failure status never coincides with the completion status (they
differ at character 7: 'f' vs 'c'). -/
theorem failedMsg_ne_complete (m : String) :
    failedMsg m ≠ "Upload complete! Video is now processing." := by
  apply ne_of_data_get _ _ 7
  unfold failedMsg
  rw [data_get_append _ _ 7 (by decide)]
  decide

/-- A failure status never coincides with the cancellation status. -/
theorem failedMsg_ne_cancelled (m : String) : failedMsg m ≠ "Upload cancelled" := by
  apply ne_of_data_get _ _ 7
  unfold failedMsg
  rw [data_get_append _ _ 7 (by decide)]
  decide

/-- A failure status never coincides with "File selected". -/
theorem failedMsg_ne_fileSelected (m : String) : failedMsg m ≠ "File selected" := by
  apply ne_of_data_get _ _ 0
  unfold failedMsg
  rw [data_get_append _ _ 0 (by decide)]
  decide

/-- A failure status never coincides with "Please select a file first". -/
theorem failedMsg_ne_pleaseSelect (m : String) :
    failedMsg m ≠ "Please select a file first" := by
  apply ne_of_data_get _ _ 0
  unfold failedMsg
  rw [data_get_append _ _ 0 (by decide)]
  decide

/-- A failure status never coincides with "Starting upload...". -/
theorem failedMsg_ne_starting (m : String) : failedMsg m ≠ "Starting upload..." := by
  apply ne_of_data_get _ _ 0
  unfold failedMsg
  rw [data_get_append _ _ 0 (by decide)]
  decide

/-- C8: if `handleUpload` runs while no file is selected, it sets the
status to "Please select a file first" and performs no effect; file,
progress, mediaId and upload are unchanged. -/
theorem c8_no_file_selected (ts : String) (s : AppState) (h : s.file = none) :
    step ts Event.clickUpload s
      = ({ s with uploadStatus := "Please select a file first" }, []) ∧
    (step ts Event.clickUpload s).1.file = s.file ∧
    (step ts Event.clickUpload s).1.progress = s.progress ∧
    (step ts Event.clickUpload s).1.mediaId = s.mediaId ∧
    (step ts Event.clickUpload s).1.upload = s.upload := by
  refine ⟨?_, ?_, ?_, ?_, ?_⟩ <;> simp [step, handleUpload, h]

/-- Witness for C8 at the initial state. -/
theorem c8_no_file_selected_witness :
    step "2025-1-1_0-0-0" Event.clickUpload initialState
      = ({ initialState with uploadStatus := "Please select a file first" }, []) ∧
    (step "2025-1-1_0-0-0" Event.clickUpload initialState).1.file = initialState.file ∧
    (step "2025-1-1_0-0-0" Event.clickUpload initialState).1.progress = initialState.progress ∧
    (step "2025-1-1_0-0-0" Event.clickUpload initialState).1.mediaId = initialState.mediaId ∧
    (step "2025-1-1_0-0-0" Event.clickUpload initialState).1.upload = initialState.upload :=
  c8_no_file_selected "2025-1-1_0-0-0" initialState rfl

/-- C10: the Upload button is disabled exactly when no file is selected or
progress is strictly between 0 and 100; the Cancel button is rendered
exactly when progress is strictly between 0 and 100; hence mid-progress
the Upload button is disabled and Cancel is offered. -/
theorem c10_button_guards (s : AppState) :
    (uploadButtonDisabled s = true ↔ (s.file = none ∨ (0 < s.progress ∧ s.progress < 100))) ∧
    (cancelButtonRendered s = true ↔ (0 < s.progress ∧ s.progress < 100)) ∧
    ((0 < s.progress ∧ s.progress < 100) →
      uploadButtonDisabled s = true ∧ cancelButtonRendered s = true) := by
  refine ⟨?_, ?_, fun hp => ?_⟩
  · simp [uploadButtonDisabled, Option.isNone_iff_eq_none]
  · simp [cancelButtonRendered]
  · simp [uploadButtonDisabled, cancelButtonRendered, hp.1, hp.2]

/-- Witness for C10 at the initial state. -/
theorem c10_button_guards_witness :
    (uploadButtonDisabled initialState = true
      ↔ (initialState.file = none ∨ (0 < initialState.progress ∧ initialState.progress < 100))) ∧
    (cancelButtonRendered initialState = true
      ↔ (0 < initialState.progress ∧ initialState.progress < 100)) ∧
    ((0 < initialState.progress ∧ initialState.progress < 100) →
      uploadButtonDisabled initialState = true ∧ cancelButtonRendered initialState = true) :=
  c10_button_guards initialState

/-- C1: the upload created by `handleUpload` carries exactly the retry
delay list [0, 3000, 5000, 10000, 20000] and chunk size 50*1024*1024; the
only abort effects the component ever emits come from `handleCancel` and
the unmount cleanup; and `onError` emits no effect at all, only setting
the failure status. -/
theorem c1_library_config_and_abort_only (ts : String) (s : AppState) (f : File)
    (h : s.file = some f) :
    (∃ u : TusUpload,
      (step ts Event.clickUpload s).2 = [Effect.createUpload u, Effect.startUpload u] ∧
      u.options.retryDelays = [0, 3000, 5000, 10000, 20000] ∧
      u.options.chunkSize = 50 * 1024 * 1024) ∧
    (∀ (x : AppState) (e : Event) (u : TusUpload),
      Effect.abortUpload u ∈ (step ts e x).2 →
      e = Event.clickCancel ∨ e = Event.unmount) ∧
    (∀ (x : AppState) (m : String),
      step ts (Event.errorCb m) x = ({ x with uploadStatus := failedMsg m }, [])) := by
  refine ⟨⟨{ file := f, options := mkUploadOptions ts f }, ?_, rfl, rfl⟩, ?_, ?_⟩
  · simp [step, handleUpload, h]
  · intro x e u hmem
    cases e with
    | fileChange files => cases files <;> simp [step, handleFileChange] at hmem
    | clickUpload => cases hx : x.file <;> simp [step, handleUpload, hx] at hmem
    | progressCb b t => simp [step, onProgress] at hmem
    | errorCb m => simp [step, onError] at hmem
    | successCb => cases hx : x.upload <;> simp [step, onSuccess, hx] at hmem
    | statusResponse r => cases r <;> simp [step, onStatusResponse] at hmem
    | clickCancel => exact Or.inl rfl
    | unmount => exact Or.inr rfl
  · intro x m
    rfl

/-- Witness for C1 with a concrete selected file. -/
theorem c1_library_config_and_abort_only_witness :
    (∃ u : TusUpload,
      (step "2025-1-1_0-0-0" Event.clickUpload
        { initialState with file := some { name := "demo.mp4", type := "video/mp4", size := 7 } }).2
        = [Effect.createUpload u, Effect.startUpload u] ∧
      u.options.retryDelays = [0, 3000, 5000, 10000, 20000] ∧
      u.options.chunkSize = 50 * 1024 * 1024) ∧
    (∀ (x : AppState) (e : Event) (u : TusUpload),
      Effect.abortUpload u ∈ (step "2025-1-1_0-0-0" e x).2 →
      e = Event.clickCancel ∨ e = Event.unmount) ∧
    (∀ (x : AppState) (m : String),
      step "2025-1-1_0-0-0" (Event.errorCb m) x = ({ x with uploadStatus := failedMsg m }, [])) :=
  c1_library_config_and_abort_only "2025-1-1_0-0-0"
    { initialState with file := some { name := "demo.mp4", type := "video/mp4", size := 7 } }
    { name := "demo.mp4", type := "video/mp4", size := 7 } rfl

/-- C9: the metadata `name` handed to `new tus.Upload` and the `filename`
query parameter of the status fetch issued after success are the same
string `<timestamp> - <file.name>`. -/
theorem c9_metadata_filename_agree (ts : String) (s : AppState) (f : File)
    (h : s.file = some f) :
    ∃ u : TusUpload,
      (step ts Event.clickUpload s).2 = [Effect.createUpload u, Effect.startUpload u] ∧
      u.options.metadataName = timestampName ts f ∧
      (step ts Event.successCb (step ts Event.clickUpload s).1).2
        = [Effect.fetchStatus
            { path := "/api/upload/status", filenameParam := u.options.metadataName }] := by
  refine ⟨{ file := f, options := mkUploadOptions ts f }, ?_, rfl, ?_⟩
  · simp [step, handleUpload, h]
  · simp [step, handleUpload, h, onSuccess, mkUploadOptions]

/-- Witness for C9 with a concrete selected file. -/
theorem c9_metadata_filename_agree_witness :
    ∃ u : TusUpload,
      (step "2025-1-1_0-0-0" Event.clickUpload
        { initialState with file := some { name := "clip.mov", type := "video/quicktime", size := 9 } }).2
        = [Effect.createUpload u, Effect.startUpload u] ∧
      u.options.metadataName
        = timestampName "2025-1-1_0-0-0" { name := "clip.mov", type := "video/quicktime", size := 9 } ∧
      (step "2025-1-1_0-0-0" Event.successCb
        (step "2025-1-1_0-0-0" Event.clickUpload
          { initialState with file := some { name := "clip.mov", type := "video/quicktime", size := 9 } }).1).2
        = [Effect.fetchStatus
            { path := "/api/upload/status", filenameParam := u.options.metadataName }] :=
  c9_metadata_filename_agree "2025-1-1_0-0-0"
    { initialState with file := some { name := "clip.mov", type := "video/quicktime", size := 9 } }
    { name := "clip.mov", type := "video/quicktime", size := 9 } rfl

/-- C2: every request whose path starts with /api/upload is forwarded to
https://api.cloudflare.com with the /api/upload path prefix rewritten to
/client/v4/accounts/ACCOUNT_ID/stream and the Authorization header set to
the bearer API token before the request leaves the proxy. -/
theorem c2_proxy_forwarding (apiToken accountId : String) (req : HttpRequest)
    (h : "/api/upload".data.isPrefixOf req.path.data = true) :
    (tusProxyForward apiToken accountId req).target = "https://api.cloudflare.com" ∧
    (tusProxyForward apiToken accountId req).request.path
      = streamPath accountId ++ String.mk (req.path.data.drop "/api/upload".data.length) ∧
    getHeader (tusProxyForward apiToken accountId req).request.headers "Authorization"
      = some ("Bearer " ++ apiToken) := by
  refine ⟨rfl, ?_, ?_⟩
  · simp [tusProxyForward, onProxyReq, tusProxyPathRewrite, h]
  · rfl

/-- Witness for C2 at a concrete creation request. -/
theorem c2_proxy_forwarding_witness :
    (tusProxyForward "tok" "acct" { method := "POST", path := "/api/upload", headers := [], body := [] }).target
      = "https://api.cloudflare.com" ∧
    (tusProxyForward "tok" "acct" { method := "POST", path := "/api/upload", headers := [], body := [] }).request.path
      = streamPath "acct" ++ String.mk (("/api/upload" : String).data.drop "/api/upload".data.length) ∧
    getHeader (tusProxyForward "tok" "acct"
        { method := "POST", path := "/api/upload", headers := [], body := [] }).request.headers
        "Authorization"
      = some ("Bearer " ++ "tok") :=
  c2_proxy_forwarding "tok" "acct"
    { method := "POST", path := "/api/upload", headers := [], body := [] } (by decide)

/-- C3: the frontend never holds the credential: its behaviour is the same
function of events and state for any two system configurations agreeing on
the timestamp; the upload options address only the localhost proxy
endpoint and carry no Authorization header; and the Authorization header
on the forwarded request is injected by the server-side proxy alone. -/
theorem c3_credential_noninterference (cfg₁ cfg₂ : SystemConfig)
    (h : cfg₁.timestamp = cfg₂.timestamp) :
    (∀ (e : Event) (s : AppState), frontendStep cfg₁ e s = frontendStep cfg₂ e s) ∧
    (∀ f : File,
      (mkUploadOptions cfg₁.timestamp f).endpoint = "http://localhost:3001/api/upload" ∧
      getHeader (mkUploadOptions cfg₁.timestamp f).headers "Authorization" = none) ∧
    (∀ req : HttpRequest,
      getHeader (tusProxyForward cfg₁.apiToken cfg₁.accountId req).request.headers "Authorization"
        = some ("Bearer " ++ cfg₁.apiToken)) := by
  refine ⟨fun e s => ?_, fun f => ⟨rfl, rfl⟩, fun req => rfl⟩
  unfold frontendStep
  rw [h]

/-- Witness for C3: two configurations with different credentials but the
same timestamp. -/
theorem c3_credential_noninterference_witness :
    (∀ (e : Event) (s : AppState),
      frontendStep { apiToken := "secretA", accountId := "acc1", timestamp := "2025-1-1_0-0-0" } e s
        = frontendStep { apiToken := "secretB", accountId := "acc2", timestamp := "2025-1-1_0-0-0" } e s) ∧
    (∀ f : File,
      (mkUploadOptions ("2025-1-1_0-0-0" : String) f).endpoint = "http://localhost:3001/api/upload" ∧
      getHeader (mkUploadOptions ("2025-1-1_0-0-0" : String) f).headers "Authorization" = none) ∧
    (∀ req : HttpRequest,
      getHeader (tusProxyForward "secretA" "acc1" req).request.headers "Authorization"
        = some ("Bearer " ++ "secretA")) :=
  c3_credential_noninterference
    { apiToken := "secretA", accountId := "acc1", timestamp := "2025-1-1_0-0-0" }
    { apiToken := "secretB", accountId := "acc2", timestamp := "2025-1-1_0-0-0" } rfl

/-- C7: every effect the component emits is a call into the tus-js-client
library (create/start/abort) or the plain status fetch — the repository
never builds tus protocol traffic itself — and the proxy passes method and
body through unchanged, constructing no tus request of its own. -/
theorem c7_protocol_consumer (ts : String) (s : AppState) (e : Event) :
    (∀ eff ∈ (step ts e s).2, tusLibraryCall eff = true ∨ ∃ r, eff = Effect.fetchStatus r) ∧
    (∀ (tk acc : String) (req : HttpRequest),
      (tusProxyForward tk acc req).request.method = req.method ∧
      (tusProxyForward tk acc req).request.body = req.body) := by
  refine ⟨fun eff _ => ?_, fun tk acc req => ⟨rfl, rfl⟩⟩
  cases eff with
  | createUpload u => exact Or.inl rfl
  | startUpload u => exact Or.inl rfl
  | abortUpload u => exact Or.inl rfl
  | fetchStatus r => exact Or.inr ⟨r, rfl⟩

/-- Witness for C7 at a concrete step. -/
theorem c7_protocol_consumer_witness :
    (∀ eff ∈ (step "2025-1-1_0-0-0" Event.clickCancel initialState).2,
      tusLibraryCall eff = true ∨ ∃ r, eff = Effect.fetchStatus r) ∧
    (∀ (tk acc : String) (req : HttpRequest),
      (tusProxyForward tk acc req).request.method = req.method ∧
      (tusProxyForward tk acc req).request.body = req.body) :=
  c7_protocol_consumer "2025-1-1_0-0-0" initialState Event.clickCancel

/-- C5: mediaId only changes when the status fetch resolves, taking the
value `data.mediaId || ""`; the status fetch itself is only issued by
`onSuccess`, against the filename the upload was registered under; a
failed fetch leaves mediaId unchanged and a response without mediaId
leaves it empty; the media-info block is rendered exactly when mediaId is
non-empty. -/
theorem c5_media_id_provenance (ts : String) (s : AppState) (e : Event) :
    ((step ts e s).1.mediaId ≠ s.mediaId →
      ∃ d : StatusData, e = Event.statusResponse (some d) ∧
        (step ts e s).1.mediaId = d.mediaId.getD "") ∧
    (∀ r : StatusRequest, Effect.fetchStatus r ∈ (step ts e s).2 →
      e = Event.successCb ∧
      ∃ u : TusUpload, s.upload = some u ∧
        r = { path := "/api/upload/status", filenameParam := timestampName ts u.file }) ∧
    ((step ts (Event.statusResponse none) s).1.mediaId = s.mediaId) ∧
    (∀ d : StatusData, d.mediaId = none →
      (step ts (Event.statusResponse (some d)) s).1.mediaId = "") ∧
    (mediaInfoRendered s = true ↔ s.mediaId ≠ "") := by
  refine ⟨?_, ?_, rfl, fun d hd => ?_, by simp [mediaInfoRendered]⟩
  · intro hne
    cases e with
    | fileChange files => cases files <;> exact absurd rfl hne
    | clickUpload =>
        cases hx : s.file <;> simp [step, handleUpload, hx] at hne
    | progressCb b t => exact absurd rfl hne
    | errorCb m => exact absurd rfl hne
    | successCb =>
        cases hx : s.upload <;> simp [step, onSuccess, hx] at hne
    | statusResponse r =>
        cases r with
        | none => exact absurd rfl hne
        | some d => exact ⟨d, rfl, rfl⟩
    | clickCancel =>
        cases hx : s.upload <;> simp [step, handleCancel, hx] at hne
    | unmount =>
        cases hx : s.upload <;> simp [step, unmountCleanup, hx] at hne
  · intro r hmem
    cases e with
    | fileChange files => cases files <;> simp [step, handleFileChange] at hmem
    | clickUpload => cases hx : s.file <;> simp [step, handleUpload, hx] at hmem
    | progressCb b t => simp [step, onProgress] at hmem
    | errorCb m => simp [step, onError] at hmem
    | successCb =>
        cases hx : s.upload with
        | none => simp [step, onSuccess, hx] at hmem
        | some u =>
            simp only [step, onSuccess, hx, List.mem_singleton] at hmem
            exact ⟨rfl, u, rfl, Effect.fetchStatus.inj hmem⟩
    | statusResponse r' => cases r' <;> simp [step, onStatusResponse] at hmem
    | clickCancel => cases hx : s.upload <;> simp [step, handleCancel, hx] at hmem
    | unmount => cases hx : s.upload <;> simp [step, unmountCleanup, hx] at hmem
  · simp [step, onStatusResponse, hd]

/-- Witness for C5 at the resolution of a status fetch carrying a media
identifier. -/
theorem c5_media_id_provenance_witness :
    ((step "2025-1-1_0-0-0" (Event.statusResponse (some { mediaId := some "abc123" })) initialState).1.mediaId
        ≠ initialState.mediaId →
      ∃ d : StatusData, Event.statusResponse (some { mediaId := some "abc123" }) = Event.statusResponse (some d) ∧
        (step "2025-1-1_0-0-0" (Event.statusResponse (some { mediaId := some "abc123" })) initialState).1.mediaId
          = d.mediaId.getD "") ∧
    (∀ r : StatusRequest,
      Effect.fetchStatus r
          ∈ (step "2025-1-1_0-0-0" (Event.statusResponse (some { mediaId := some "abc123" })) initialState).2 →
      Event.statusResponse (some { mediaId := some "abc123" }) = Event.successCb ∧
      ∃ u : TusUpload, initialState.upload = some u ∧
        r = { path := "/api/upload/status", filenameParam := timestampName "2025-1-1_0-0-0" u.file }) ∧
    ((step "2025-1-1_0-0-0" (Event.statusResponse none) initialState).1.mediaId = initialState.mediaId) ∧
    (∀ d : StatusData, d.mediaId = none →
      (step "2025-1-1_0-0-0" (Event.statusResponse (some d)) initialState).1.mediaId = "") ∧
    (mediaInfoRendered initialState = true ↔ initialState.mediaId ≠ "") :=
  c5_media_id_provenance "2025-1-1_0-0-0" initialState
    (Event.statusResponse (some { mediaId := some "abc123" }))

/-- Bounds of the toFixed(2) rounding: a value in [0, 100] rounds to an
integer numerator in [0, 10000]. -/
theorem toFixed2Int_bounds (q : ℚ) (h0 : 0 ≤ q) (h1 : q ≤ 100) :
    0 ≤ toFixed2Int q ∧ toFixed2Int q ≤ 10000 := by
  unfold toFixed2Int roundHalfUp
  constructor
  · rw [Int.floor_nonneg]
    nlinarith
  · rw [Int.floor_le_iff]
    push_cast
    nlinarith

/-- C6: on `onProgress(bytesUploaded, bytesTotal)` with positive total the
stored progress is (bytesUploaded / bytesTotal) * 100 rounded to two
decimal places, the status is the corresponding uploading message, and
when 0 ≤ bytesUploaded ≤ bytesTotal the progress lies in [0, 100]. -/
theorem c6_progress_rounding (s : AppState) (b t : Nat) (ht : 0 < t) :
    (onProgress s b t).1.progress
      = ((toFixed2Int ((b : ℚ) / (t : ℚ) * 100) : ℤ) : ℚ) / 100 ∧
    (onProgress s b t).1.uploadStatus = uploadingMsg (toFixed2Int ((b : ℚ) / (t : ℚ) * 100)) ∧
    (b ≤ t →
      0 ≤ (onProgress s b t).1.progress ∧ (onProgress s b t).1.progress ≤ 100) := by
  refine ⟨rfl, rfl, fun hbt => ?_⟩
  have ht' : (0 : ℚ) < (t : ℚ) := by exact_mod_cast ht
  have hbt' : (b : ℚ) ≤ (t : ℚ) := by exact_mod_cast hbt
  have hr0 : (0 : ℚ) ≤ (b : ℚ) / (t : ℚ) := div_nonneg (by positivity) ht'.le
  have hr1 : (b : ℚ) / (t : ℚ) ≤ 1 := (div_le_one ht').mpr hbt'
  have hq0 : (0 : ℚ) ≤ (b : ℚ) / (t : ℚ) * 100 := by nlinarith
  have hq1 : (b : ℚ) / (t : ℚ) * 100 ≤ 100 := by nlinarith
  obtain ⟨hn0, hn1⟩ := toFixed2Int_bounds _ hq0 hq1
  have hn0' : (0 : ℚ) ≤ ((toFixed2Int ((b : ℚ) / (t : ℚ) * 100) : ℤ) : ℚ) := by exact_mod_cast hn0
  have hn1' : ((toFixed2Int ((b : ℚ) / (t : ℚ) * 100) : ℤ) : ℚ) ≤ 10000 := by exact_mod_cast hn1
  constructor
  · show (0 : ℚ) ≤ ((toFixed2Int ((b : ℚ) / (t : ℚ) * 100) : ℤ) : ℚ) / 100
    positivity
  · show ((toFixed2Int ((b : ℚ) / (t : ℚ) * 100) : ℤ) : ℚ) / 100 ≤ 100
    rw [div_le_iff₀ (by norm_num : (0 : ℚ) < 100)]
    linarith

/-- Witness for C6 at bytesUploaded = 1, bytesTotal = 3. -/
theorem c6_progress_rounding_witness :
    (onProgress initialState 1 3).1.progress
      = ((toFixed2Int ((1 : ℚ) / (3 : ℚ) * 100) : ℤ) : ℚ) / 100 ∧
    (onProgress initialState 1 3).1.uploadStatus
      = uploadingMsg (toFixed2Int ((1 : ℚ) / (3 : ℚ) * 100)) ∧
    (1 ≤ 3 →
      0 ≤ (onProgress initialState 1 3).1.progress ∧
      (onProgress initialState 1 3).1.progress ≤ 100) :=
  c6_progress_rounding initialState 1 3 (by decide)

/-- The closed set of status messages the component can set: the idle-side
statuses, the uploading statuses, the completion status, the failure
statuses and the cancellation status. -/
def MachineStatus (st : String) : Prop :=
  st = "File selected" ∨
  st = "Please select a file first" ∨
  st = "Starting upload..." ∨
  (∃ n : ℤ, st = uploadingMsg n) ∨
  st = "Upload complete! Video is now processing." ∨
  (∃ m : String, st = failedMsg m) ∨
  st = "Upload cancelled"

/-- C4: every step either leaves the status unchanged or sets one of the
statuses of the idle → uploading → done/cancelled/error machine, and
whenever the status changes to an uploading / completion / failure /
cancellation status, the event was onProgress / onSuccess / onError /
handleCancel respectively. -/
theorem c4_status_machine (ts : String) (s : AppState) (e : Event) :
    ((step ts e s).1.uploadStatus = s.uploadStatus ∨
      MachineStatus (step ts e s).1.uploadStatus) ∧
    ((step ts e s).1.uploadStatus ≠ s.uploadStatus →
      ((∃ n : ℤ, (step ts e s).1.uploadStatus = uploadingMsg n) →
        ∃ b t : Nat, e = Event.progressCb b t) ∧
      ((step ts e s).1.uploadStatus = "Upload complete! Video is now processing." →
        e = Event.successCb) ∧
      ((∃ m : String, (step ts e s).1.uploadStatus = failedMsg m) →
        ∃ m : String, e = Event.errorCb m) ∧
      ((step ts e s).1.uploadStatus = "Upload cancelled" → e = Event.clickCancel)) := by
  cases e with
  | fileChange files =>
      cases files with
      | nil => exact ⟨Or.inl rfl, fun hne => absurd rfl hne⟩
      | cons f rest =>
          have hst : (step ts (Event.fileChange (f :: rest)) s).1.uploadStatus
              = "File selected" := rfl
          rw [hst]
          refine ⟨Or.inr (Or.inl rfl), fun _ => ⟨?_, ?_, ?_, ?_⟩⟩
          · rintro ⟨n, hn⟩
            exact absurd hn.symm (uploadingMsg_ne_fileSelected n)
          · intro hc
            exact absurd hc (by decide)
          · rintro ⟨m, hm⟩
            exact absurd hm.symm (failedMsg_ne_fileSelected m)
          · intro hc
            exact absurd hc (by decide)
  | clickUpload =>
      cases hx : s.file with
      | none =>
          have hst : (step ts Event.clickUpload s).1.uploadStatus
              = "Please select a file first" := by
            simp [step, handleUpload, hx]
          rw [hst]
          refine ⟨Or.inr (Or.inr (Or.inl rfl)), fun _ => ⟨?_, ?_, ?_, ?_⟩⟩
          · rintro ⟨n, hn⟩
            exact absurd hn.symm (uploadingMsg_ne_pleaseSelect n)
          · intro hc
            exact absurd hc (by decide)
          · rintro ⟨m, hm⟩
            exact absurd hm.symm (failedMsg_ne_pleaseSelect m)
          · intro hc
            exact absurd hc (by decide)
      | some f =>
          have hst : (step ts Event.clickUpload s).1.uploadStatus
              = "Starting upload..." := by
            simp [step, handleUpload, hx]
          rw [hst]
          refine ⟨Or.inr (Or.inr (Or.inr (Or.inl rfl))), fun _ => ⟨?_, ?_, ?_, ?_⟩⟩
          · rintro ⟨n, hn⟩
            exact absurd hn.symm (uploadingMsg_ne_starting n)
          · intro hc
            exact absurd hc (by decide)
          · rintro ⟨m, hm⟩
            exact absurd hm.symm (failedMsg_ne_starting m)
          · intro hc
            exact absurd hc (by decide)
  | progressCb b t =>
      have hst : (step ts (Event.progressCb b t) s).1.uploadStatus
          = uploadingMsg (toFixed2Int ((b : ℚ) / (t : ℚ) * 100)) := rfl
      rw [hst]
      refine ⟨Or.inr (Or.inr (Or.inr (Or.inr (Or.inl ⟨_, rfl⟩)))),
        fun _ => ⟨fun _ => ⟨b, t, rfl⟩, ?_, ?_, ?_⟩⟩
      · intro hc
        exact absurd hc (uploadingMsg_ne_complete _)
      · rintro ⟨m, hm⟩
        exact absurd hm (uploadingMsg_ne_failedMsg _ m)
      · intro hc
        exact absurd hc (uploadingMsg_ne_cancelled _)
  | errorCb m =>
      have hst : (step ts (Event.errorCb m) s).1.uploadStatus = failedMsg m := rfl
      rw [hst]
      refine ⟨Or.inr (Or.inr (Or.inr (Or.inr (Or.inr (Or.inr (Or.inl ⟨m, rfl⟩)))))),
        fun _ => ⟨?_, ?_, fun _ => ⟨m, rfl⟩, ?_⟩⟩
      · rintro ⟨n, hn⟩
        exact absurd hn.symm (uploadingMsg_ne_failedMsg n m)
      · intro hc
        exact absurd hc (failedMsg_ne_complete m)
      · intro hc
        exact absurd hc (failedMsg_ne_cancelled m)
  | successCb =>
      cases hx : s.upload with
      | none =>
          have hst : (step ts Event.successCb s).1.uploadStatus = s.uploadStatus := by
            simp [step, onSuccess, hx]
          exact ⟨Or.inl hst, fun hne => absurd hst hne⟩
      | some u =>
          have hst : (step ts Event.successCb s).1.uploadStatus
              = "Upload complete! Video is now processing." := by
            simp [step, onSuccess, hx]
          rw [hst]
          refine ⟨Or.inr (Or.inr (Or.inr (Or.inr (Or.inr (Or.inl rfl))))),
            fun _ => ⟨?_, fun _ => rfl, ?_, ?_⟩⟩
          · rintro ⟨n, hn⟩
            exact absurd hn.symm (uploadingMsg_ne_complete n)
          · rintro ⟨m, hm⟩
            exact absurd hm.symm (failedMsg_ne_complete m)
          · intro hc
            exact absurd hc (by decide)
  | statusResponse r =>
      have hst : (step ts (Event.statusResponse r) s).1.uploadStatus = s.uploadStatus := by
        cases r <;> rfl
      exact ⟨Or.inl hst, fun hne => absurd hst hne⟩
  | clickCancel =>
      cases hx : s.upload with
      | none =>
          have hst : (step ts Event.clickCancel s).1.uploadStatus = s.uploadStatus := by
            simp [step, handleCancel, hx]
          exact ⟨Or.inl hst, fun hne => absurd hst hne⟩
      | some u =>
          have hst : (step ts Event.clickCancel s).1.uploadStatus = "Upload cancelled" := by
            simp [step, handleCancel, hx]
          rw [hst]
          refine ⟨Or.inr (Or.inr (Or.inr (Or.inr (Or.inr (Or.inr (Or.inr rfl)))))),
            fun _ => ⟨?_, ?_, ?_, fun _ => rfl⟩⟩
          · rintro ⟨n, hn⟩
            exact absurd hn.symm (uploadingMsg_ne_cancelled n)
          · intro hc
            exact absurd hc (by decide)
          · rintro ⟨m, hm⟩
            exact absurd hm.symm (failedMsg_ne_cancelled m)
  | unmount =>
      have hst : (step ts Event.unmount s).1.uploadStatus = s.uploadStatus := by
        cases hx : s.upload <;> simp [step, unmountCleanup, hx]
      exact ⟨Or.inl hst, fun hne => absurd hst hne⟩

/-- Witness for C4 at a concrete progress callback. -/
theorem c4_status_machine_witness :
    ((step "2025-1-1_0-0-0" (Event.progressCb 1 2) initialState).1.uploadStatus
        = initialState.uploadStatus ∨
      MachineStatus (step "2025-1-1_0-0-0" (Event.progressCb 1 2) initialState).1.uploadStatus) ∧
    ((step "2025-1-1_0-0-0" (Event.progressCb 1 2) initialState).1.uploadStatus
        ≠ initialState.uploadStatus →
      ((∃ n : ℤ,
          (step "2025-1-1_0-0-0" (Event.progressCb 1 2) initialState).1.uploadStatus
            = uploadingMsg n) →
        ∃ b t : Nat, Event.progressCb 1 2 = Event.progressCb b t) ∧
      ((step "2025-1-1_0-0-0" (Event.progressCb 1 2) initialState).1.uploadStatus
          = "Upload complete! Video is now processing." →
        Event.progressCb 1 2 = Event.successCb) ∧
      ((∃ m : String,
          (step "2025-1-1_0-0-0" (Event.progressCb 1 2) initialState).1.uploadStatus
            = failedMsg m) →
        ∃ m : String, Event.progressCb 1 2 = Event.errorCb m) ∧
      ((step "2025-1-1_0-0-0" (Event.progressCb 1 2) initialState).1.uploadStatus
          = "Upload cancelled" →
        Event.progressCb 1 2 = Event.clickCancel)) :=
  c4_status_machine "2025-1-1_0-0-0" initialState (Event.progressCb 1 2)

end TusDemo
